import Mathlib

/-!
Shallow embedding of the alert evaluation and lifecycle engine of the
DiscordBinanceBot repository (src/database.py, src/binance_client.py,
src/alert_service.py, src/bot.py), together with theorems settling the
frozen claims about its specification.

Modelling conventions:
* prices (Python floats) are rationals `ℚ`; timestamps and ids are `ℤ`;
* the SQLite `alerts` table is a list of rows plus the AUTOINCREMENT
  counter (`DB`); `INSERT` appends, `DELETE WHERE id` filters;
* Python exceptions of a store operation are `Except String`;
* the Binance HTTP response and the Discord delivery outcome are oracles
  passed in as arguments (`List Candle`, `Alert → Except String Unit`).
-/

namespace BinanceBot

/-- Candle value as returned by `fetch_latest_closed_candle`
(src/binance_client.py): `{high, low, close_time}`. -/
structure Candle where
  high : ℚ
  low : ℚ
  close_time : ℤ
deriving Repr, DecidableEq

/-- Alert record (dataclass `Alert`, src/database.py lines 12-22). -/
structure Alert where
  id : ℤ
  ticker : String
  strike_price : ℚ
  direction : String
  note : String
  channel_id : Option ℤ
  created_at : String
deriving Repr, DecidableEq

/-- The `alerts` SQLite table: rows in insertion (rowid) order plus the
AUTOINCREMENT counter for the next assigned id. -/
structure DB where
  nextId : ℤ
  alerts : List Alert
deriving Repr, DecidableEq

/-- Python `s.upper()` on the characters of `s`. -/
def pyUpper (s : String) : String :=
  String.mk (s.data.map Char.toUpper)

/-- Python `s.replace("/", "")`: remove every slash character. -/
def removeSlashes (s : String) : String :=
  String.mk (s.data.filter (fun c => c ≠ '/'))

/-- Python `s.endswith("USDT")`. -/
def endsWithUSDT (s : String) : Bool :=
  List.isSuffixOf "USDT".data s.data

/-- Ticker normalization performed by `add_alert`, `get_alerts_for_ticker`
and `fetch_latest_closed_candle`:
`ticker.upper().replace("/", "")`, then append `"USDT"` unless already a
`USDT` pair (src/database.py lines 92-94). -/
def normalizeTicker (t : String) : String :=
  let t := removeSlashes (pyUpper t)
  if endsWithUSDT t then t else t ++ "USDT"

/-- The CHECK constraint of the `alerts` table:
`direction IN ('up', 'down', 'touch')` (src/database.py line 47). -/
def validDirection (d : String) : Bool :=
  d = "up" || d = "down" || d = "touch"

/-- Model of `get_alert_by_id` (src/database.py lines 113-120):
`SELECT * FROM alerts WHERE id = ?` then `fetchone()` — the first row in
table order whose id matches, if any. -/
def get_alert_by_id (db : DB) (alert_id : ℤ) : Option Alert :=
  db.alerts.find? (fun a => a.id = alert_id)

/-- Insert an alert into a list sorted by ascending id (model of the SQL
`ORDER BY id`). -/
def insertById (a : Alert) : List Alert → List Alert
  | [] => [a]
  | b :: rest => if a.id ≤ b.id then a :: b :: rest else b :: insertById a rest

/-- Sort rows by ascending id (model of the SQL `ORDER BY id`). -/
def sortById : List Alert → List Alert
  | [] => []
  | a :: rest => insertById a (sortById rest)

/-- Model of `get_all_alerts` (src/database.py lines 123-130):
`SELECT * FROM alerts ORDER BY id`. -/
def get_all_alerts (db : DB) : List Alert :=
  sortById db.alerts

/-- Model of `add_alert` (src/database.py lines 84-110): normalize the
ticker, `INSERT` the row (the table CHECK constraint rejects an invalid
direction with an `IntegrityError`, modelled as `Except.error`), then
return `get_alert_by_id(row_id)`.  The SQLite column default
`datetime('now')` is the explicit `now` argument. -/
def add_alert (db : DB) (now : String) (ticker : String) (strike_price : ℚ)
    (direction : String) (note : String) (channel_id : Option ℤ) :
    Except String (DB × Option Alert) :=
  let t := normalizeTicker ticker
  if validDirection direction then
    let row : Alert :=
      { id := db.nextId, ticker := t, strike_price := strike_price,
        direction := direction, note := note, channel_id := channel_id,
        created_at := now }
    let db' : DB := { nextId := db.nextId + 1, alerts := db.alerts ++ [row] }
    Except.ok (db', get_alert_by_id db' db.nextId)
  else
    Except.error "CHECK constraint failed: direction"

/-- Model of `remove_alert` (src/database.py lines 150-158):
`DELETE FROM alerts WHERE id = ?`, returning `rowcount > 0`. -/
def remove_alert (db : DB) (alert_id : ℤ) : DB × Bool :=
  let remaining := db.alerts.filter (fun a => a.id ≠ alert_id)
  ({ nextId := db.nextId, alerts := remaining },
   decide (remaining.length < db.alerts.length))

/-- Lexicographic comparison of character lists by code point, the
ordering SQLite's `ORDER BY` uses on ASCII ticker text. -/
def lexLt : List Char → List Char → Bool
  | [], [] => false
  | [], _ :: _ => true
  | _ :: _, [] => false
  | a :: as, b :: bs =>
      if a.toNat < b.toNat then true
      else if a.toNat = b.toNat then lexLt as bs
      else false

/-- Insert a string into a sorted list (ascending `lexLt`). -/
def insertStr (x : String) : List String → List String
  | [] => [x]
  | y :: rest => if lexLt x.data y.data then x :: y :: rest else y :: insertStr x rest

/-- Insertion sort of strings in ascending `lexLt` order. -/
def sortStrs : List String → List String
  | [] => []
  | x :: rest => insertStr x (sortStrs rest)

/-- Model of `get_distinct_tickers` (src/database.py lines 161-170):
`SELECT DISTINCT ticker FROM alerts ORDER BY ticker`. -/
def get_distinct_tickers (db : DB) : List String :=
  sortStrs ((db.alerts.map (fun a => a.ticker)).eraseDups)

/-!
src/binance_client.py.  The kline response of `client.get_klines(...,
limit=2)` is the oracle argument `klines`, ordered oldest to newest; each
kline is reduced to the fields the function reads (`HIGH_INDEX`,
`LOW_INDEX`, `CLOSE_TIME_INDEX`).  Ticker normalization (lines 35-37)
only chooses which symbol is queried and is shared with `normalizeTicker`.
-/

/-- Model of the candle selection of `fetch_latest_closed_candle`
(src/binance_client.py lines 39-68): `None` on an empty response, else
`klines[-2] if len(klines) >= 2 else klines[-1]`, reduced to
`{high, low, close_time}`. -/
def fetch_latest_closed_candle (klines : List Candle) : Option Candle :=
  match klines.reverse with
  | [] => none
  | [c] => some c
  | _ :: c :: _ => some c

/-- Response wellformedness at fetch time `now`: every kline except the
newest (last) one is a completed bucket, i.e. its `close_time` has
already elapsed.  (Binance includes the still-forming current bucket as
the last element of a kline response.) -/
def klinesClosedExceptLast (now : ℤ) (klines : List Candle) : Prop :=
  ∀ c ∈ klines.dropLast, c.close_time < now

/-!
src/alert_service.py.  The module-global dict `_last_checked` is an
association list threaded through the loop; Discord delivery is the
oracle `deliver : Alert → Except String Unit` (`Except.error` models
`channel.send` raising).  Channel resolution (lines 73-81) only selects
the destination object handed to `channel.send` and never touches the
store or the dedup state, so it is absorbed into the delivery oracle.
-/

/-- Python `dict.get` on the `_last_checked` association list. -/
def lookupLC : List (String × ℤ) → String → Option ℤ
  | [], _ => none
  | (k, v) :: rest, key => if k = key then some v else lookupLC rest key

/-- Python `dict` assignment `_last_checked[ticker] = close_time`. -/
def insertLC : List (String × ℤ) → String → ℤ → List (String × ℤ)
  | [], key, val => [(key, val)]
  | (k, v) :: rest, key, val =>
      if k = key then (key, val) :: rest else (k, v) :: insertLC rest key val

/-- The dedup check of `check_alerts_and_send` (src/alert_service.py
lines 46-49): skip when the stored close_time for the ticker equals the
candle's, else record the candle's close_time and process.  Returns
(process?, updated map). -/
def shouldProcess (lastChecked : List (String × ℤ)) (ticker : String)
    (close_time : ℤ) : Bool × List (String × ℤ) :=
  if lookupLC lastChecked ticker = some close_time then
    (false, lastChecked)
  else
    (true, insertLC lastChecked ticker close_time)

/-- Result of evaluating one alert against one candle: the local
variables `hit` and `price_value` of the per-alert body. -/
structure EvalResult where
  hit : Bool
  price_value : ℚ
deriving Repr, DecidableEq

/-- The strike-condition check of `check_alerts_and_send`
(src/alert_service.py lines 56-70), as the pure evaluator it computes:
touch (or unset direction) hits when `low <= strike <= high` reporting
the strike; up hits when `high >= strike` reporting the high; down hits
when `low <= strike` reporting the low. -/
def evaluate (alert : Alert) (candle : Candle) : EvalResult :=
  let high := candle.high
  let low := candle.low
  if alert.direction = "touch" ∨ alert.direction = "" then
    if low ≤ alert.strike_price ∧ alert.strike_price ≤ high then
      { hit := true, price_value := alert.strike_price }
    else
      { hit := false, price_value := 0 }
  else if alert.direction = "up" then
    if high ≥ alert.strike_price then
      { hit := true, price_value := high }
    else
      { hit := false, price_value := 0 }
  else if alert.direction = "down" then
    if low ≤ alert.strike_price then
      { hit := true, price_value := low }
    else
      { hit := false, price_value := 0 }
  else
    { hit := false, price_value := 0 }

/-- The `try: await channel.send(...) except Exception: logger.exception`
block (src/alert_service.py lines 84-88): a raising delivery is caught
and logged, a successful one logs nothing; control always continues. -/
def attemptDelivery (deliver : Alert → Except String Unit) (a : Alert) :
    Option String :=
  match deliver a with
  | Except.ok _ => none
  | Except.error e => some e

/-- The per-alert body of `check_alerts_and_send` (src/alert_service.py
lines 56-97): evaluate; on a hit, attempt delivery (exceptions caught and
logged) and then unconditionally `remove_alert(alert.id)`.  Returns the
store after the body and the log of delivery failures. -/
def processAlert (deliver : Alert → Except String Unit) (candle : Candle)
    (db : DB) (a : Alert) : DB × List String :=
  let r := evaluate a candle
  if r.hit then
    let log := attemptDelivery deliver a
    ((remove_alert db a.id).1, log.toList)
  else
    (db, [])

/-- State threaded through one call of `check_alerts_and_send`: the
alerts table and the module-global `_last_checked` map. -/
structure ServiceState where
  db : DB
  lastChecked : List (String × ℤ)
deriving Repr, DecidableEq

/-- The per-ticker body of `check_alerts_and_send` (src/alert_service.py
lines 41-97): fetch the candle (`continue` on `None`), dedup-check the
close_time, then evaluate every alert of that ticker from a fresh
`get_all_alerts()` snapshot and dispatch the hits. -/
def processTicker (fetch : String → Option Candle)
    (deliver : Alert → Except String Unit)
    (st : ServiceState) (ticker : String) : ServiceState × List String :=
  match fetch ticker with
  | none => (st, [])
  | some candle =>
    match shouldProcess st.lastChecked ticker candle.close_time with
    | (false, lc) => ({ db := st.db, lastChecked := lc }, [])
    | (true, lc) =>
      let alertsFor := (get_all_alerts st.db).filter (fun a => a.ticker = ticker)
      let result := alertsFor.foldl
        (fun acc a =>
          let step := processAlert deliver candle acc.1 a
          (step.1, acc.2 ++ step.2))
        (st.db, ([] : List String))
      ({ db := result.1, lastChecked := lc }, result.2)

/-- Model of `check_alerts_and_send` (src/alert_service.py lines 29-97):
iterate the per-ticker body over `get_distinct_tickers()`. -/
def check_alerts_and_send (fetch : String → Option Candle)
    (deliver : Alert → Except String Unit)
    (st : ServiceState) : ServiceState × List String :=
  (get_distinct_tickers st.db).foldl
    (fun acc t =>
      let step := processTicker fetch deliver acc.1 t
      (step.1, acc.2 ++ step.2))
    (st, [])

/-!
src/bot.py.  The settings store is passed as the raw value of the
`poll_interval_seconds` key (`Option String`, `none` when the row is
absent); Python's `int(raw)` builtin (raises `ValueError` on anything
that is not optional whitespace, an optional sign and digits) is
modelled by `pyInt`.  The command handlers are modelled at the level of
their already-parsed arguments; parsing of the message text only
extracts ticker, prices and note and cannot influence the direction or
channel passed to `add_alert`.
-/

/-- Constant `MIN_POLL_INTERVAL` (src/bot.py line 43). -/
def MIN_POLL_INTERVAL : ℤ := 30

/-- Constant `MAX_POLL_INTERVAL` (src/bot.py line 44). -/
def MAX_POLL_INTERVAL : ℤ := 300

/-- Constant `DEFAULT_POLL_INTERVAL` (src/bot.py line 45). -/
def DEFAULT_POLL_INTERVAL : ℤ := 60

/-- Python whitespace recognizer used by `int()`'s argument stripping. -/
def isSpaceChar (c : Char) : Bool :=
  c = ' ' || c = '\t' || c = '\n' || c = '\r'

/-- Digit run to a natural number; `none` when empty or non-digit. -/
def parseDigits (cs : List Char) : Option ℕ :=
  if cs.isEmpty then none
  else if cs.all Char.isDigit then
    some (cs.foldl (fun acc c => acc * 10 + (c.toNat - 48)) 0)
  else none

/-- Model of Python's `int(s)` builtin on a string: strip surrounding
whitespace, accept an optional sign followed by digits, `none` in place
of `ValueError` otherwise. -/
def pyInt (s : String) : Option ℤ :=
  let cs := ((s.data.dropWhile isSpaceChar).reverse.dropWhile isSpaceChar).reverse
  match cs with
  | '-' :: rest => (parseDigits rest).map (fun n => -(n : ℤ))
  | '+' :: rest => (parseDigits rest).map (fun n => (n : ℤ))
  | rest => (parseDigits rest).map (fun n => (n : ℤ))

/-- Model of `_get_poll_interval` (src/bot.py lines 491-500): the raw
`poll_interval_seconds` setting; `if not raw` (absent or empty string)
gives the default, a parsed integer is clamped with
`max(MIN_POLL_INTERVAL, min(MAX_POLL_INTERVAL, secs))`, and a
`ValueError` from `int(raw)` gives the default. -/
def get_poll_interval (raw : Option String) : ℤ :=
  match raw with
  | none => DEFAULT_POLL_INTERVAL
  | some s =>
    if s = "" then DEFAULT_POLL_INTERVAL
    else
      match pyInt s with
      | some secs => max MIN_POLL_INTERVAL (min MAX_POLL_INTERVAL secs)
      | none => DEFAULT_POLL_INTERVAL

/-- Model of the `addalert` slash-command handler (src/bot.py lines
69-97): reject a non-positive strike before touching the store, else
call `add_alert(ticker=ticker, strike_price=strike_price, note=note)` —
direction and channel_id take their store defaults `"touch"` and `None`.
Returns the store after the command and the reply text. -/
def addalert_command (db : DB) (now : String) (ticker : String)
    (strike_price : ℚ) (note : String) : DB × String :=
  if strike_price ≤ 0 then
    (db, "Strike price must be positive.")
  else
    match add_alert db now ticker strike_price "touch" note none with
    | Except.ok (db', _) => (db', "Alert added")
    | Except.error e => (db, "Failed to add alert: " ++ e)

/-- Model of the `!addalert` message-command handler (src/bot.py lines
353-383): after parsing ticker, price and note, reject a non-positive
price, else call `add_alert(ticker=ticker, strike_price=strike_price,
note=note)` with default direction and channel_id. -/
def msg_addalert_command (db : DB) (now : String) (ticker : String)
    (strike_price : ℚ) (note : String) : DB × String :=
  if strike_price ≤ 0 then
    (db, "Price must be positive.")
  else
    match add_alert db now ticker strike_price "touch" note none with
    | Except.ok (db', _) => (db', "Alert added")
    | Except.error e => (db, "Failed to add alert: " ++ e)

/-- The add loop of `!bulkaddalert` (src/bot.py lines 410-413): one
`add_alert` per parsed price with default direction and channel_id; an
exception aborts the loop (the handler catches it and replies). -/
def bulkAddLoop (now ticker note : String) : List ℚ → DB → DB
  | [], db => db
  | p :: rest, db =>
    match add_alert db now ticker p "touch" note none with
    | Except.ok (db', _) => bulkAddLoop now ticker note rest db'
    | Except.error _ => db

/-- Model of the `!bulkaddalert` message-command handler (src/bot.py
lines 385-423): the parse loop collects the prices (returning before any
add when a non-positive price appears, the trailing non-numeric words
becoming the note), then one `add_alert` per price. -/
def bulkaddalert_command (db : DB) (now : String) (ticker : String)
    (prices : List ℚ) (note : String) : DB × String :=
  if prices.any (fun v => decide (v ≤ 0)) then
    (db, "Price must be positive.")
  else if prices.isEmpty then
    (db, "At least one price is required.")
  else
    (bulkAddLoop now ticker note prices db, "Added alerts")

/-- Model of the `removealert` handlers (src/bot.py lines 100-111 and
472-485): `remove_alert(alert_id)` and a reply by its boolean. -/
def removealert_command (db : DB) (alert_id : ℤ) : DB × String :=
  let r := remove_alert db alert_id
  (r.1, if r.2 then "Alert removed." else "Alert not found.")

/-- The inbound chat commands that touch the alerts table, with their
already-parsed arguments. -/
inductive Command where
  | slashAdd (ticker : String) (strike : ℚ) (note : String)
  | msgAdd (ticker : String) (strike : ℚ) (note : String)
  | bulkAdd (ticker : String) (prices : List ℚ) (note : String)
  | removeCmd (id : ℤ)
deriving Repr, DecidableEq

/-- Alert-store effect of one inbound chat command. -/
def execCommand (now : String) (db : DB) : Command → DB
  | Command.slashAdd t p n => (addalert_command db now t p n).1
  | Command.msgAdd t p n => (msg_addalert_command db now t p n).1
  | Command.bulkAdd t ps n => (bulkaddalert_command db now t ps n).1
  | Command.removeCmd i => (removealert_command db i).1

/-! Theorems. -/

/-- Inserting a binding and then looking the key up yields the new value. -/
theorem lookupLC_insertLC (m : List (String × ℤ)) (k : String) (v : ℤ) :
    lookupLC (insertLC m k v) k = some v := by
  induction m with
  | nil => simp [insertLC, lookupLC]
  | cons p rest ih =>
    obtain ⟨k', v'⟩ := p
    by_cases h : k' = k
    · subst h
      simp [insertLC, lookupLC]
    · simp [insertLC, lookupLC, h, ih]

/-- C1: for every alert and every candle, the evaluator reports a hit
exactly under these conditions with inclusive boundaries: direction
"touch" (or unset) hits iff `low ≤ strike ≤ high` reporting the strike;
"up" hits iff `high ≥ strike` reporting the high; "down" hits iff
`low ≤ strike` reporting the low. -/
theorem C1_evaluate_rules (a : Alert) (c : Candle) :
    ((a.direction = "touch" ∨ a.direction = "") →
      (((evaluate a c).hit = true) ↔
        (c.low ≤ a.strike_price ∧ a.strike_price ≤ c.high)) ∧
      ((evaluate a c).hit = true → (evaluate a c).price_value = a.strike_price)) ∧
    (a.direction = "up" →
      (((evaluate a c).hit = true) ↔ c.high ≥ a.strike_price) ∧
      ((evaluate a c).hit = true → (evaluate a c).price_value = c.high)) ∧
    (a.direction = "down" →
      (((evaluate a c).hit = true) ↔ c.low ≤ a.strike_price) ∧
      ((evaluate a c).hit = true → (evaluate a c).price_value = c.low)) := by
  refine ⟨fun h => ?_, fun h => ?_, fun h => ?_⟩
  · by_cases hc : c.low ≤ a.strike_price ∧ a.strike_price ≤ c.high
    · rcases h with h | h <;> simp [evaluate, h, hc]
    · rcases h with h | h <;> simp [evaluate, h, hc]
  · by_cases hc : c.high ≥ a.strike_price
    · simp [evaluate, h, hc]
    · simp [evaluate, h, hc]
  · by_cases hc : c.low ≤ a.strike_price
    · simp [evaluate, h, hc]
    · simp [evaluate, h, hc]

/-- Witness for C1 at a concrete touch alert and candle (Scenario A of
the spec): strike 100000, candle low 99500 / high 100200. -/
theorem C1_witness :
    (evaluate
      { id := 1, ticker := "BTCUSDT", strike_price := 100000,
        direction := "touch", note := "", channel_id := none, created_at := "t" }
      { high := 100200, low := 99500, close_time := 7 }).hit = true ∧
    (evaluate
      { id := 1, ticker := "BTCUSDT", strike_price := 100000,
        direction := "touch", note := "", channel_id := none, created_at := "t" }
      { high := 100200, low := 99500, close_time := 7 }).price_value = 100000 := by
  have h := C1_evaluate_rules
    { id := 1, ticker := "BTCUSDT", strike_price := 100000,
      direction := "touch", note := "", channel_id := none, created_at := "t" }
    { high := 100200, low := 99500, close_time := 7 }
  have hhit := (h.1 (Or.inl rfl)).1.mpr (by norm_num)
  exact ⟨hhit, (h.1 (Or.inl rfl)).2 hhit⟩

/-- C2: the dedup check processes a `(symbol, close_time)` pair exactly
once until a different close_time is seen for that symbol: it returns
true iff the stored value differs, a true immediately records the
close_time (test-and-set), a false leaves the map unchanged, an
immediate repeat with the same close_time returns false, and any other
close_time — including one older than the stored value — returns
true. -/
theorem C2_dedup (m : List (String × ℤ)) (s : String) (t t' : ℤ) :
    ((shouldProcess m s t).1 = true ↔ ¬(lookupLC m s = some t)) ∧
    ((shouldProcess m s t).1 = true →
      lookupLC (shouldProcess m s t).2 s = some t) ∧
    ((shouldProcess m s t).1 = false → (shouldProcess m s t).2 = m) ∧
    (shouldProcess (shouldProcess m s t).2 s t).1 = false ∧
    (lookupLC m s = some t → t' ≠ t → (shouldProcess m s t').1 = true) := by
  by_cases h : lookupLC m s = some t
  · refine ⟨by simp [shouldProcess, h], by simp [shouldProcess, h],
      fun _ => by simp [shouldProcess, h], by simp [shouldProcess, h],
      fun _ ht' => ?_⟩
    have hne : ¬(lookupLC m s = some t') := by
      rw [h]
      simp [Ne.symm ht']
    simp [shouldProcess, hne]
  · refine ⟨by simp [shouldProcess, h], fun _ => ?_,
      by simp [shouldProcess, h], ?_, fun hst => absurd hst h⟩
    · simp [shouldProcess, h, lookupLC_insertLC]
    · simp [shouldProcess, h, lookupLC_insertLC]

/-- Witness for C2 at a concrete map: from the empty map, processing
`("BTCUSDT", 5)` returns true and records 5; an immediate repeat returns
false; an older close_time 3 then returns true. -/
theorem C2_witness :
    (shouldProcess [] "BTCUSDT" 5).1 = true ∧
    lookupLC (shouldProcess [] "BTCUSDT" 5).2 "BTCUSDT" = some 5 ∧
    (shouldProcess (shouldProcess [] "BTCUSDT" 5).2 "BTCUSDT" 5).1 = false ∧
    (shouldProcess [("BTCUSDT", 5)] "BTCUSDT" 3).1 = true := by
  have h := C2_dedup [] "BTCUSDT" 5 5
  have h' := C2_dedup [("BTCUSDT", 5)] "BTCUSDT" 5 3
  have hhit := h.1.mpr (by decide)
  exact ⟨hhit, h.2.1 hhit, h.2.2.2.1, h'.2.2.2.2 (by decide) (by decide)⟩

/-- C6: `remove_alert` returns true iff a row with the id existed (and
was deleted); it is idempotent — a second removal of the same id returns
false, and removing a nonexistent id is not an error, returns false and
leaves the table unchanged. -/
theorem C6_remove_idempotent (db : DB) (i : ℤ) :
    ((remove_alert db i).2 = true ↔
      db.alerts.any (fun a => a.id = i) = true) ∧
    (remove_alert (remove_alert db i).1 i).2 = false ∧
    (db.alerts.any (fun a => a.id = i) = false →
      (remove_alert db i).2 = false ∧ (remove_alert db i).1 = db) := by
  have hall : ∀ a ∈ db.alerts.filter (fun a => decide (a.id ≠ i)),
      decide (a.id ≠ i) = true :=
    fun a ha => (List.mem_filter.mp ha).2
  have heq := List.filter_eq_self.mpr hall
  refine ⟨?_, ?_, fun hnone => ?_⟩
  · simp only [remove_alert, decide_eq_true_eq, List.any_eq_true]
    rw [List.length_filter_lt_length_iff_exists]
    simp
  · simp [remove_alert, heq]
  · have hall2 : ∀ a ∈ db.alerts, decide (a.id ≠ i) = true := by
      intro a ha
      simp only [List.any_eq_false, decide_eq_true_eq] at hnone
      simpa using hnone a ha
    have heq2 := List.filter_eq_self.mpr hall2
    constructor
    · show decide ((db.alerts.filter fun a => decide (a.id ≠ i)).length
        < db.alerts.length) = false
      rw [heq2]
      simp
    · show DB.mk db.nextId (db.alerts.filter (fun a => decide (a.id ≠ i))) = db
      rw [heq2]

/-- Witness for C6: on a table with the single alert id 1, removing id 1
twice returns true then false, and removing the absent id 7 returns
false with the table unchanged. -/
theorem C6_witness :
    (remove_alert
      { nextId := 2,
        alerts := [{ id := 1, ticker := "BTCUSDT", strike_price := 5,
                     direction := "touch", note := "", channel_id := none,
                     created_at := "t" }] } 1).2 = true ∧
    (remove_alert (remove_alert
      { nextId := 2,
        alerts := [{ id := 1, ticker := "BTCUSDT", strike_price := 5,
                     direction := "touch", note := "", channel_id := none,
                     created_at := "t" }] } 1).1 1).2 = false ∧
    (remove_alert ({ nextId := 1, alerts := [] } : DB) 7).2 = false := by
  have h := C6_remove_idempotent
    { nextId := 2,
      alerts := [{ id := 1, ticker := "BTCUSDT", strike_price := 5,
                   direction := "touch", note := "", channel_id := none,
                   created_at := "t" }] } 1
  have h' := C6_remove_idempotent ({ nextId := 1, alerts := [] } : DB) 7
  exact ⟨h.1.mpr (by decide), h.2.1, (h'.2.2 (by decide)).1⟩

/-- C9: the poll interval read by the scheduler is always within the
fixed bounds 30–300; an absent or unparsable `poll_interval_seconds`
setting yields the default 60, which lies strictly inside the range. -/
theorem C9_poll_interval (raw : Option String) :
    (MIN_POLL_INTERVAL ≤ get_poll_interval raw ∧
      get_poll_interval raw ≤ MAX_POLL_INTERVAL) ∧
    get_poll_interval none = DEFAULT_POLL_INTERVAL ∧
    (∀ s, raw = some s → pyInt s = none →
      get_poll_interval raw = DEFAULT_POLL_INTERVAL) ∧
    MIN_POLL_INTERVAL < DEFAULT_POLL_INTERVAL ∧
    DEFAULT_POLL_INTERVAL < MAX_POLL_INTERVAL := by
  refine ⟨?_, rfl, fun s hs hparse => ?_, by norm_num [MIN_POLL_INTERVAL, DEFAULT_POLL_INTERVAL],
    by norm_num [DEFAULT_POLL_INTERVAL, MAX_POLL_INTERVAL]⟩
  · rcases raw with _ | s
    · norm_num [get_poll_interval, MIN_POLL_INTERVAL, MAX_POLL_INTERVAL, DEFAULT_POLL_INTERVAL]
    · simp only [get_poll_interval]
      split
      · norm_num [MIN_POLL_INTERVAL, MAX_POLL_INTERVAL, DEFAULT_POLL_INTERVAL]
      · rcases hp : pyInt s with _ | secs
        · norm_num [MIN_POLL_INTERVAL, MAX_POLL_INTERVAL, DEFAULT_POLL_INTERVAL]
        · constructor
          · exact le_max_left _ _
          · refine max_le (by norm_num [MIN_POLL_INTERVAL, MAX_POLL_INTERVAL]) ?_
            exact min_le_left _ _
  · subst hs
    simp only [get_poll_interval]
    split
    · rfl
    · rw [hparse]

/-- Witness for C9: the stored value "500" is clamped into 30–300, and
the unparsable stored value "abc" yields the default. -/
theorem C9_witness :
    (MIN_POLL_INTERVAL ≤ get_poll_interval (some "500") ∧
      get_poll_interval (some "500") ≤ MAX_POLL_INTERVAL) ∧
    get_poll_interval (some "abc") = DEFAULT_POLL_INTERVAL := by
  exact ⟨(C9_poll_interval (some "500")).1,
    (C9_poll_interval (some "abc")).2.2.1 "abc" rfl (by decide)⟩

/-- Searching an appended list when no element of the first part
matches searches the second part. -/
theorem find?_append_of_none (l1 l2 : List Alert) (p : Alert → Bool)
    (h : ∀ x ∈ l1, p x = false) :
    (l1 ++ l2).find? p = l2.find? p := by
  induction l1 with
  | nil => rfl
  | cons a rest ih =>
    simp only [List.cons_append, List.find?]
    rw [h a (by simp)]
    exact ih (fun x hx => h x (by simp [hx]))

/-- C7: for every valid input (a direction the table accepts, and a
store whose rows respect the AUTOINCREMENT invariant that no existing id
equals the next id), `add_alert` followed by `get_alert_by_id` on the
returned id yields a record whose ticker, strike_price, direction and
note are identical to those of the record `add_alert` returned. -/
theorem C7_roundtrip (db : DB) (now ticker note : String) (price : ℚ)
    (d : String) (ch : Option ℤ)
    (hd : validDirection d = true)
    (hfresh : ∀ a ∈ db.alerts, a.id ≠ db.nextId) :
    ∃ db' ret,
      add_alert db now ticker price d note ch = Except.ok (db', some ret) ∧
      get_alert_by_id db' ret.id = some ret ∧
      ret.ticker = normalizeTicker ticker ∧ ret.strike_price = price ∧
      ret.direction = d ∧ ret.note = note := by
  have hnone : ∀ x ∈ db.alerts, (fun a : Alert => decide (a.id = db.nextId)) x = false := by
    intro x hx
    simp [hfresh x hx]
  have hget : get_alert_by_id
      { nextId := db.nextId + 1,
        alerts := db.alerts ++
          [{ id := db.nextId, ticker := normalizeTicker ticker,
             strike_price := price, direction := d, note := note,
             channel_id := ch, created_at := now }] } db.nextId
      = some { id := db.nextId, ticker := normalizeTicker ticker,
               strike_price := price, direction := d, note := note,
               channel_id := ch, created_at := now } := by
    simp only [get_alert_by_id]
    rw [find?_append_of_none _ _ _ hnone]
    simp [List.find?]
  refine ⟨{ nextId := db.nextId + 1,
            alerts := db.alerts ++
              [{ id := db.nextId, ticker := normalizeTicker ticker,
                 strike_price := price, direction := d, note := note,
                 channel_id := ch, created_at := now }] },
          { id := db.nextId, ticker := normalizeTicker ticker,
            strike_price := price, direction := d, note := note,
            channel_id := ch, created_at := now },
          ?_, hget, rfl, rfl, rfl, rfl⟩
  simp only [add_alert, hd, if_true]
  rw [hget]

/-- Witness for C7: adding a touch alert for "BTC" at 100000 to the
empty store and reading it back by the returned id. -/
theorem C7_witness :
    ∃ db' ret,
      add_alert { nextId := 1, alerts := [] } "t" "BTC" 100000 "touch" "hi" none
        = Except.ok (db', some ret) ∧
      get_alert_by_id db' ret.id = some ret ∧
      ret.ticker = normalizeTicker "BTC" ∧ ret.strike_price = 100000 ∧
      ret.direction = "touch" ∧ ret.note = "hi" :=
  C7_roundtrip { nextId := 1, alerts := [] } "t" "BTC" "hi" 100000 "touch" none
    (by decide) (by simp)

/-- C4 counterexample: the store-level `add_alert` called directly with
`strike_price = -5` (and the valid default direction "touch") does not
fail — it stores the record and `get_all_alerts` changes. -/
theorem C4_counterexample :
    add_alert { nextId := 1, alerts := [] } "t" "BTC" (-5) "touch" "" none
      = Except.ok
          ({ nextId := 2,
             alerts := [{ id := 1, ticker := "BTCUSDT", strike_price := -5,
                          direction := "touch", note := "", channel_id := none,
                          created_at := "t" }] },
           some { id := 1, ticker := "BTCUSDT", strike_price := -5,
                  direction := "touch", note := "", channel_id := none,
                  created_at := "t" }) ∧
    get_all_alerts
        { nextId := 2,
          alerts := [{ id := 1, ticker := "BTCUSDT", strike_price := -5,
                       direction := "touch", note := "", channel_id := none,
                       created_at := "t" }] }
      ≠ get_all_alerts { nextId := 1, alerts := [] } := by
  constructor
  · rfl
  · simp [get_all_alerts, sortById, insertById]

/-- C4 amended: the store-level `add_alert` fails (SQLite CHECK
constraint) exactly on an invalid direction, creating no record; a
non-positive strike_price is not validated by the store but by the
command handlers, which reject it before calling `add_alert`, leaving
`get_all_alerts()` unchanged. -/
theorem C4_add_validation (db : DB) (now ticker note : String) (price : ℚ)
    (d : String) (ch : Option ℤ) :
    (validDirection d = false →
      add_alert db now ticker price d note ch
        = Except.error "CHECK constraint failed: direction") ∧
    (price ≤ 0 →
      addalert_command db now ticker price note
          = (db, "Strike price must be positive.") ∧
      get_all_alerts (addalert_command db now ticker price note).1
          = get_all_alerts db ∧
      msg_addalert_command db now ticker price note
          = (db, "Price must be positive.")) := by
  constructor
  · intro h
    simp [add_alert, h]
  · intro h
    refine ⟨?_, ?_, ?_⟩ <;> simp [addalert_command, msg_addalert_command, h]

/-- Witness for the amended C4: an invalid direction "sideways" is
rejected by the store, and the slash-command handler rejects strike -5
leaving the store unchanged. -/
theorem C4_witness :
    add_alert { nextId := 1, alerts := [] } "t" "BTC" 5 "sideways" "" none
      = Except.error "CHECK constraint failed: direction" ∧
    addalert_command { nextId := 1, alerts := [] } "t" "BTC" (-5) ""
      = ({ nextId := 1, alerts := [] }, "Strike price must be positive.") := by
  exact ⟨(C4_add_validation { nextId := 1, alerts := [] } "t" "BTC" "" 5 "sideways" none).1
      (by decide),
    ((C4_add_validation { nextId := 1, alerts := [] } "t" "BTC" "" (-5) "touch" none).2
      (by norm_num)).1⟩

/-- An element in second position from the end is in `dropLast`. -/
theorem mem_dropLast_of_reverse (l : List Candle) (a b : Candle)
    (rest : List Candle) (h : l.reverse = a :: b :: rest) :
    b ∈ l.dropLast := by
  have h' := congrArg List.reverse h
  simp only [List.reverse_reverse, List.reverse_cons] at h'
  rw [h', List.dropLast_concat]
  exact List.mem_append.mpr (Or.inr (by simp))

/-- C5 counterexample: a response consisting of one single kline — which
Binance semantics allow to be the still-forming current bucket, so the
closed-except-last wellformedness holds vacuously — is returned as the
"latest closed" candle although its close_time (2000) has not elapsed at
fetch time 1000. -/
theorem C5_counterexample :
    klinesClosedExceptLast 1000 [{ high := 100, low := 90, close_time := 2000 }] ∧
    fetch_latest_closed_candle [{ high := 100, low := 90, close_time := 2000 }]
      = some { high := 100, low := 90, close_time := 2000 } ∧
    ¬((2000 : ℤ) < 1000) := by
  refine ⟨?_, rfl, by norm_num⟩
  intro c hc
  simp at hc

/-- C5 amended: when the kline response holds at least two klines and
every kline except the newest is a completed bucket, the candle returned
by `fetch_latest_closed_candle` (the second-to-last kline) has a
close_time that has already elapsed at fetch time; a single-kline
response is returned as-is and may still be forming. -/
theorem C5_closed_when_two (now : ℤ) (klines : List Candle)
    (h2 : 2 ≤ klines.length)
    (hwf : klinesClosedExceptLast now klines) :
    ∃ c, fetch_latest_closed_candle klines = some c ∧ c.close_time < now := by
  rcases hrev : klines.reverse with _ | ⟨a, rest⟩
  · exfalso
    have hlen := congrArg List.length hrev
    simp only [List.length_reverse, List.length_nil, List.length_cons] at hlen
    omega
  rcases rest with _ | ⟨b, rest'⟩
  · exfalso
    have hlen := congrArg List.length hrev
    simp only [List.length_reverse, List.length_nil, List.length_cons] at hlen
    omega
  refine ⟨b, ?_, ?_⟩
  · simp [fetch_latest_closed_candle, hrev]
  · exact hwf b (mem_dropLast_of_reverse klines a b rest' hrev)

/-- Witness for the amended C5: a two-kline response whose older kline
closed at 100 before fetch time 150 yields that older kline. -/
theorem C5_witness :
    ∃ c, fetch_latest_closed_candle
        [{ high := 1, low := 1, close_time := 100 },
         { high := 2, low := 2, close_time := 200 }] = some c ∧
      c.close_time < 150 :=
  C5_closed_when_two 150
    [{ high := 1, low := 1, close_time := 100 },
     { high := 2, low := 2, close_time := 200 }]
    (by norm_num) (by intro c hc; simp at hc; rw [hc]; norm_num)

/-- C8: when the candle fetch fails or returns no candle for a symbol
(`fetch_latest_closed_candle` returns `None` for both), the per-ticker
step of the poll cycle skips the symbol and leaves the whole state
unchanged: no alert for the symbol is evaluated or removed, nothing is
logged, and the dedup marker is neither cleared nor modified. -/
theorem C8_fetch_failure_skips (fetch : String → Option Candle)
    (deliver : Alert → Except String Unit) (st : ServiceState)
    (ticker : String) (h : fetch ticker = none) :
    processTicker fetch deliver st ticker = (st, []) := by
  simp [processTicker, h]

/-- Witness for C8: a failing fetch leaves a concrete one-alert state
with a recorded dedup marker exactly as it was. -/
theorem C8_witness :
    processTicker (fun _ => none) (fun _ => Except.ok ())
      { db := { nextId := 2,
                alerts := [{ id := 1, ticker := "BTCUSDT", strike_price := 5,
                             direction := "touch", note := "",
                             channel_id := none, created_at := "t" }] },
        lastChecked := [("BTCUSDT", 5)] } "BTCUSDT"
      = ({ db := { nextId := 2,
                   alerts := [{ id := 1, ticker := "BTCUSDT", strike_price := 5,
                                direction := "touch", note := "",
                                channel_id := none, created_at := "t" }] },
           lastChecked := [("BTCUSDT", 5)] }, []) :=
  C8_fetch_failure_skips (fun _ => none) (fun _ => Except.ok ()) _ "BTCUSDT" rfl

/-- The store after the per-alert body does not depend on the delivery
outcome. -/
theorem processAlert_fst_indep (d d' : Alert → Except String Unit)
    (c : Candle) (db : DB) (a : Alert) :
    (processAlert d c db a).1 = (processAlert d' c db a).1 := by
  by_cases h : (evaluate a c).hit = true <;> simp [processAlert, h]

/-- The store after folding the per-alert body over a list of alerts
does not depend on the delivery outcomes or on the accumulated logs. -/
theorem foldAlerts_fst_indep (d d' : Alert → Except String Unit)
    (c : Candle) (l : List Alert) :
    ∀ (db : DB) (logs logs' : List String),
      (l.foldl (fun acc a =>
        let step := processAlert d c acc.1 a
        (step.1, acc.2 ++ step.2)) (db, logs)).1
      = (l.foldl (fun acc a =>
        let step := processAlert d' c acc.1 a
        (step.1, acc.2 ++ step.2)) (db, logs')).1 := by
  induction l with
  | nil => intro db logs logs'; rfl
  | cons a rest ih =>
    intro db logs logs'
    simp only [List.foldl_cons]
    rw [processAlert_fst_indep d d' c db a]
    exact ih _ _ _

/-- The state after the per-ticker body does not depend on the delivery
outcomes. -/
theorem processTicker_fst_indep (fetch : String → Option Candle)
    (d d' : Alert → Except String Unit) (st : ServiceState) (ticker : String) :
    (processTicker fetch d st ticker).1 = (processTicker fetch d' st ticker).1 := by
  cases hf : fetch ticker with
  | none => simp [processTicker, hf]
  | some candle =>
    simp only [processTicker, hf]
    cases hsp : shouldProcess st.lastChecked ticker candle.close_time with
    | mk b lc =>
      cases b
      · rfl
      · simp only []
        rw [foldAlerts_fst_indep d d' candle]

/-- The state after a whole poll cycle does not depend on the delivery
outcomes. -/
theorem check_alerts_fst_indep (fetch : String → Option Candle)
    (d d' : Alert → Except String Unit) (st : ServiceState) :
    (check_alerts_and_send fetch d st).1 = (check_alerts_and_send fetch d' st).1 := by
  simp only [check_alerts_and_send]
  have key : ∀ (ts : List String) (s : ServiceState) (logs logs' : List String),
      (ts.foldl (fun acc t =>
        let step := processTicker fetch d acc.1 t
        (step.1, acc.2 ++ step.2)) (s, logs)).1
      = (ts.foldl (fun acc t =>
        let step := processTicker fetch d' acc.1 t
        (step.1, acc.2 ++ step.2)) (s, logs')).1 := by
    intro ts
    induction ts with
    | nil => intro s logs logs'; rfl
    | cons t rest ih =>
      intro s logs logs'
      simp only [List.foldl_cons]
      rw [processTicker_fst_indep fetch d d' s t]
      exact ih _ _ _
  exact key _ st [] []

/-- C3: for every alert the evaluator reports as a hit, the dispatcher
removes the alert from the store after the delivery attempt whatever the
delivery outcome is; a delivery failure is logged and does not prevent
the removal; and no delivery outcome propagates to abort the cycle —
the state a whole cycle produces is independent of every delivery
outcome. -/
theorem C3_retire_after_attempt (deliver d1 d2 : Alert → Except String Unit)
    (fetch : String → Option Candle) (c : Candle) (db : DB) (a : Alert)
    (st : ServiceState) (e : String) :
    ((evaluate a c).hit = true →
      (processAlert deliver c db a).1 = (remove_alert db a.id).1 ∧
      (deliver a = Except.error e → (processAlert deliver c db a).2 = [e])) ∧
    (check_alerts_and_send fetch d1 st).1 = (check_alerts_and_send fetch d2 st).1 := by
  constructor
  · intro hhit
    constructor
    · simp [processAlert, hhit]
    · intro herr
      simp [processAlert, hhit, attemptDelivery, herr]
  · exact check_alerts_fst_indep fetch d1 d2 st

/-- Witness for C3: a delivery that throws "boom" on a hit alert still
removes the alert and logs the failure. -/
theorem C3_witness :
    (processAlert (fun _ => Except.error "boom")
      { high := 100200, low := 99500, close_time := 7 }
      { nextId := 2,
        alerts := [{ id := 1, ticker := "BTCUSDT", strike_price := 100000,
                     direction := "touch", note := "", channel_id := none,
                     created_at := "t" }] }
      { id := 1, ticker := "BTCUSDT", strike_price := 100000,
        direction := "touch", note := "", channel_id := none,
        created_at := "t" }).1
      = (remove_alert
          { nextId := 2,
            alerts := [{ id := 1, ticker := "BTCUSDT", strike_price := 100000,
                         direction := "touch", note := "", channel_id := none,
                         created_at := "t" }] }
          ({ id := 1, ticker := "BTCUSDT", strike_price := 100000,
             direction := "touch", note := "", channel_id := none,
             created_at := "t" } : Alert).id).1 ∧
    (processAlert (fun _ => Except.error "boom")
      { high := 100200, low := 99500, close_time := 7 }
      { nextId := 2,
        alerts := [{ id := 1, ticker := "BTCUSDT", strike_price := 100000,
                     direction := "touch", note := "", channel_id := none,
                     created_at := "t" }] }
      { id := 1, ticker := "BTCUSDT", strike_price := 100000,
        direction := "touch", note := "", channel_id := none,
        created_at := "t" }).2 = ["boom"] := by
  have h := C3_retire_after_attempt (fun _ => Except.error "boom")
    (fun _ => Except.ok ()) (fun _ => Except.ok ()) (fun _ => none)
    { high := 100200, low := 99500, close_time := 7 }
    { nextId := 2,
      alerts := [{ id := 1, ticker := "BTCUSDT", strike_price := 100000,
                   direction := "touch", note := "", channel_id := none,
                   created_at := "t" }] }
    { id := 1, ticker := "BTCUSDT", strike_price := 100000,
      direction := "touch", note := "", channel_id := none, created_at := "t" }
    { db := { nextId := 1, alerts := [] }, lastChecked := [] } "boom"
  have hh := h.1 (by norm_num [evaluate])
  exact ⟨hh.1, hh.2 rfl⟩

/-- Every alert of a store produced by `add_alert` with direction
"touch" and no channel override is a touch alert without override,
provided every existing alert was. -/
theorem add_alert_touch_inv (db : DB) (now t n : String) (p : ℚ)
    (db' : DB) (r : Option Alert)
    (h : add_alert db now t p "touch" n none = Except.ok (db', r))
    (hinv : ∀ a ∈ db.alerts, a.direction = "touch" ∧ a.channel_id = none) :
    ∀ a ∈ db'.alerts, a.direction = "touch" ∧ a.channel_id = none := by
  simp only [add_alert] at h
  rw [if_pos (by decide : validDirection "touch" = true)] at h
  have hx := Except.ok.inj h
  have hdb := congrArg Prod.fst hx
  dsimp only at hdb
  intro a ha
  rw [← hdb] at ha
  simp only [List.mem_append, List.mem_singleton] at ha
  rcases ha with ha | ha
  · exact hinv a ha
  · subst ha
    exact ⟨rfl, rfl⟩

/-- The bulk-add loop preserves the touch-only/no-override invariant. -/
theorem bulkAddLoop_touch_inv (now t n : String) (ps : List ℚ) :
    ∀ db : DB, (∀ a ∈ db.alerts, a.direction = "touch" ∧ a.channel_id = none) →
      ∀ a ∈ (bulkAddLoop now t n ps db).alerts,
        a.direction = "touch" ∧ a.channel_id = none := by
  induction ps with
  | nil => intro db hinv; exact hinv
  | cons p rest ih =>
    intro db hinv
    simp only [bulkAddLoop]
    cases hadd : add_alert db now t p "touch" n none with
    | error e => exact hinv
    | ok pr => exact ih pr.1 (add_alert_touch_inv db now t n p pr.1 pr.2 (by rw [hadd]) hinv)

/-- Every inbound chat command preserves the touch-only/no-override
invariant of the alerts table. -/
theorem execCommand_touch_inv (now : String) (db : DB) (cmd : Command)
    (hinv : ∀ a ∈ db.alerts, a.direction = "touch" ∧ a.channel_id = none) :
    ∀ a ∈ (execCommand now db cmd).alerts,
      a.direction = "touch" ∧ a.channel_id = none := by
  cases cmd with
  | slashAdd t p n =>
    simp only [execCommand, addalert_command]
    split
    · exact hinv
    · cases hadd : add_alert db now t p "touch" n none with
      | error e => simp only [hadd]; exact hinv
      | ok pr =>
        simp only [hadd]
        exact add_alert_touch_inv db now t n p pr.1 pr.2 (by rw [hadd]) hinv
  | msgAdd t p n =>
    simp only [execCommand, msg_addalert_command]
    split
    · exact hinv
    · cases hadd : add_alert db now t p "touch" n none with
      | error e => simp only [hadd]; exact hinv
      | ok pr =>
        simp only [hadd]
        exact add_alert_touch_inv db now t n p pr.1 pr.2 (by rw [hadd]) hinv
  | bulkAdd t ps n =>
    simp only [execCommand, bulkaddalert_command]
    split
    · exact hinv
    · split
      · exact hinv
      · exact bulkAddLoop_touch_inv now t n ps db hinv
  | removeCmd i =>
    simp only [execCommand, removealert_command, remove_alert]
    intro a ha
    exact hinv a (List.mem_of_mem_filter ha)

/-- A command sequence run from a touch-only store keeps it touch-only. -/
theorem foldl_execCommand_touch_inv (now : String) (cmds : List Command) :
    ∀ db : DB, (∀ a ∈ db.alerts, a.direction = "touch" ∧ a.channel_id = none) →
      ∀ a ∈ (cmds.foldl (execCommand now) db).alerts,
        a.direction = "touch" ∧ a.channel_id = none := by
  induction cmds with
  | nil => intro db hinv; exact hinv
  | cons c rest ih =>
    intro db hinv
    simp only [List.foldl_cons]
    exact ih _ (execCommand_touch_inv now db c hinv)

/-- C10: every alert created through the implemented inbound chat
commands (the `addalert` slash command, `!addalert`, `!bulkaddalert`)
has direction "touch" and no destination override — in every store state
reachable from the empty store via the command handlers alone, all
alerts are touch alerts with `channel_id = None`. -/
theorem C10_commands_touch_only (now : String) (cmds : List Command) :
    ∀ a ∈ (cmds.foldl (execCommand now) { nextId := 1, alerts := [] }).alerts,
      a.direction = "touch" ∧ a.channel_id = none :=
  foldl_execCommand_touch_inv now cmds { nextId := 1, alerts := [] }
    (by intro a ha; simp at ha)

/-- Witness for C10: the alert the slash command `addalert BTC 100`
creates in the empty store is a touch alert with no override. -/
theorem C10_witness :
    ({ id := 1, ticker := "BTCUSDT", strike_price := 100, direction := "touch",
       note := "", channel_id := none, created_at := "t" } : Alert).direction
        = "touch" ∧
    ({ id := 1, ticker := "BTCUSDT", strike_price := 100, direction := "touch",
       note := "", channel_id := none, created_at := "t" } : Alert).channel_id
        = none :=
  C10_commands_touch_only "t" [Command.slashAdd "BTC" 100 ""]
    { id := 1, ticker := "BTCUSDT", strike_price := 100, direction := "touch",
      note := "", channel_id := none, created_at := "t" }
    (by decide)

end BinanceBot
